import Mathlib

/-!
Verification development for the Meditab AI portal backend.

The definitions below are a shallow embedding, translated from the Python
sources `backend/ai_new_services.py`, `backend/ai_services.py` and
`backend/testing/final_medical_groq.py`.  Python string primitives
(`lower`, `title`, `strip`, `split`, `in`, `isalnum`, …) are modelled as
executable Lean functions over `List Char`; network effects (model calls,
tool executors, OCR engines, the PDF renderer) are modelled as explicit
oracle parameters so that every control path of the source is a total,
computable Lean function.
-/

namespace Py

/-- Python `str.lower` (the source only lowercases ASCII data). -/
def pyLower (s : String) : String :=
  String.mk (s.data.map Char.toLower)

/-- Whitespace stripped by Python `str.strip`. -/
def isPySpace (c : Char) : Bool :=
  c == ' ' || c == '\t' || c == '\n' || c == '\r' || c == '\x0b' || c == '\x0c'

/-- Python `str.strip`. -/
def pyStrip (s : String) : String :=
  String.mk (((s.data.dropWhile isPySpace).reverse.dropWhile isPySpace).reverse)

/-- Boolean list-prefix test used by the substring model. -/
def leadsList : List Char → List Char → Bool
  | [], _ => true
  | _ :: _, [] => false
  | a :: as, b :: bs => a == b && leadsList as bs

/-- Occurrence of `needle` inside `hay` (Python's `needle in hay`). -/
def occursIn (needle : List Char) : List Char → Bool
  | [] => needle.isEmpty
  | c :: cs => leadsList needle (c :: cs) || occursIn needle cs

/-- Python `needle in hay` on strings. -/
def pyIn (needle hay : String) : Bool :=
  occursIn needle.data hay.data

/-- Python `str.replace(old, new)` for a one-character pattern. -/
def pyReplaceChar (old new : Char) (s : String) : String :=
  String.mk (s.data.map (fun c => if c == old then new else c))

/-- Python `str.split(sep)` for a one-character separator, on char lists. -/
def splitCharList (sep : Char) : List Char → List (List Char)
  | [] => [[]]
  | c :: cs =>
    let r := splitCharList sep cs
    if c == sep then [] :: r
    else
      match r with
      | [] => [[c]]
      | h :: t => (c :: h) :: t

/-- Python `str.split(sep)` for a one-character separator. -/
def splitChar (sep : Char) (s : String) : List String :=
  (splitCharList sep s.data).map String.mk

/-- Python `sep.join(xs)`. -/
def joinSep (sep : String) : List String → String
  | [] => ""
  | [x] => x
  | x :: y :: t => x ++ sep ++ joinSep sep (y :: t)

/-- Python `s[:n]` (first `n` characters). -/
def pyTake (n : Nat) (s : String) : String :=
  String.mk (s.data.take n)

/-- Python `str.title` on char lists: a cased character starts a word
(uppercased) when the previous character is not cased, and is lowercased
otherwise.  The source only title-cases ASCII data. -/
def pyTitleList : Bool → List Char → List Char
  | _, [] => []
  | prevCased, c :: cs =>
    if c.isAlpha then
      (if prevCased then c.toLower else c.toUpper) :: pyTitleList true cs
    else
      c :: pyTitleList false cs

/-- Python `str.title`. -/
def pyTitle (s : String) : String :=
  String.mk (pyTitleList false s.data)

/-- Python `str.isalnum`, modelled exactly on the Basic Latin and Latin-1
Supplement blocks (code points below U+0100): ASCII letters and digits,
the Latin-1 letters U+00C0–U+00FF except the multiplication and division
signs, plus the Latin-1 ordinals, superscripts, fractions and micro sign,
which Python also counts as alphanumeric.  Higher code points (also
alphanumeric in Python when they are letters or digits) are not needed by
this development. -/
def pyIsAlnum (c : Char) : Bool :=
  c.isAlphanum ||
  (let n := c.toNat
   n == 0xAA || n == 0xB2 || n == 0xB3 || n == 0xB5 || n == 0xB9 || n == 0xBA ||
   n == 0xBC || n == 0xBD || n == 0xBE ||
   (0xC0 ≤ n && n ≤ 0xFF && n != 0xD7 && n != 0xF7))

end Py

namespace AiNew

open Py

/-! Embedding of `backend/ai_new_services.py`. -/

/-- Directory where report PDFs are written (`REPORTS_DIR`). -/
def REPORTS_DIR : String := "static/reports"

/-- Arguments of the `generate_hospital_pdf` tool (its Python signature). -/
structure GenArgs where
  patient_name : String
  age : String
  gender : String
  chief_complaint : String
  history : String
  lifestyle_impact : String
  diagnosis : String
  medications : String
  prognosis : String
  medical_opinion : String
  recommendations : String
deriving DecidableEq, Repr

/-- Placeholder tokens rejected for the patient name (line 485). -/
def name_placeholders : List String := ["unknown", "user", "patient", "n/a"]

/-- Placeholder tokens rejected for the age (line 487). -/
def age_placeholders : List String := ["unknown", "0", "n/a"]

/-- Placeholder tokens rejected for the gender (line 489). -/
def gender_placeholders : List String := ["unknown", "not specified", "n/a"]

/-- `not patient_name or patient_name.lower() in [...]` (line 485). -/
def name_missing (s : String) : Bool :=
  s == "" || name_placeholders.contains (pyLower s)

/-- `not age or age.lower() in [...]` (line 487). -/
def age_missing (s : String) : Bool :=
  s == "" || age_placeholders.contains (pyLower s)

/-- `not gender or gender.lower() in [...]` (line 489). -/
def gender_missing (s : String) : Bool :=
  s == "" || gender_placeholders.contains (pyLower s)

/-- The `missing_fields` list accumulated by `generate_hospital_pdf`
(lines 483-490), in the source's append order. -/
def missing_fields (a : GenArgs) : List String :=
  (if name_missing a.patient_name then ["Patient Name"] else []) ++
  (if age_missing a.age then ["Age"] else []) ++
  (if gender_missing a.gender then ["Gender"] else [])

/-- The rejection string returned when validation fails (line 494). -/
def rejection_message (mf : List String) : String :=
  "SYSTEM_REJECTION: You cannot generate a report yet. You are missing: " ++
  joinSep ", " mf ++ ". Ask the user for these details first."

/-- The spec's ValidationVerdict view of the code-level validation block. -/
structure ValidationVerdict where
  accepted : Bool
  missing : List String
  message : String
deriving DecidableEq, Repr

/-- The Validation Gate: the code-level validation block of
`generate_hospital_pdf` (lines 481-494) viewed as a pure verdict. -/
def validate_report_args (a : GenArgs) : ValidationVerdict :=
  let mf := missing_fields a
  ⟨mf.isEmpty, mf, if mf.isEmpty then "" else rejection_message mf⟩

/-- `"".join(x for x in patient_name if x.isalnum())[:10]` (line 498). -/
def safe_name (patient_name : String) : String :=
  String.mk ((patient_name.data.filter pyIsAlnum).take 10)

/-- `f"Report_{safe_name}_{int(time.time())}.pdf"` (line 499). -/
def report_filename (patient_name : String) (now : Nat) : String :=
  "Report_" ++ safe_name patient_name ++ "_" ++ toString now ++ ".pdf"

/-- Medication parsing (line 502): replace newlines by commas, split on
commas, keep segments with non-empty strip, title-case each; empty input
falls back to the sentinel list. -/
def parse_medications (medications : String) : List String :=
  if medications != "" then
    (((pyReplaceChar '\n' ',' medications |> splitChar ',')).filter
        (fun m => pyStrip m != "")).map (fun m => pyTitle (pyStrip m))
  else ["None reported"]

/-- The `data` dict handed to `MedicalReportGenerator.create_pdf`
(lines 505-517). -/
structure ReportData where
  patient_name : String
  age : String
  gender : String
  chief_complaint : String
  history : String
  lifestyle_impact : String
  diagnosis : String
  medications : List String
  prognosis : String
  medical_opinion : String
  recommendations : String
deriving DecidableEq, Repr

/-- `os.path.join(REPORTS_DIR, filename)` inside
`MedicalReportGenerator.create_pdf` (line 253). -/
def create_pdf_path (filename : String) : String :=
  REPORTS_DIR ++ "/" ++ filename

/-- Outcome of one `generate_hospital_pdf` invocation: the string fed back
to the model, the file (if any) created under `REPORTS_DIR`, and the
payload handed to the renderer (if validation passed). -/
structure GenOutcome where
  result : String
  created_file : Option String
  payload : Option ReportData
deriving DecidableEq, Repr

/-- The `generate_hospital_pdf` tool (lines 463-524).  The PDF renderer
is an oracle: on success the file is created; on failure it reports the
exception text and whether a file was nevertheless left behind. -/
def generate_hospital_pdf (render : String → ReportData → Except (String × Bool) Unit)
    (now : Nat) (a : GenArgs) : GenOutcome :=
  let mf := missing_fields a
  if mf.isEmpty then
    let fname := report_filename a.patient_name now
    let data : ReportData :=
      ⟨pyTitle a.patient_name, a.age, pyTitle a.gender, a.chief_complaint,
       a.history, a.lifestyle_impact, a.diagnosis,
       parse_medications a.medications, a.prognosis, a.medical_opinion,
       a.recommendations⟩
    match render fname data with
    | Except.ok _ =>
        ⟨"REPORT_GENERATED_AT: /static/reports/" ++ fname, some fname, some data⟩
    | Except.error (e, fileLeft) =>
        ⟨"SYSTEM ERROR: Report generation failed. Reason: " ++ e,
         if fileLeft then some fname else none, some data⟩
  else
    ⟨rejection_message mf, none, none⟩

/-- A model-issued tool call (`response.tool_calls` entries). -/
structure ToolCall where
  id : String
  name : String
  args : List (String × String)
deriving DecidableEq, Repr

/-- Messages of the LangChain conversation fed to the model. -/
inductive Msg
  | system (content : String)
  | human (content : String)
  | ai (content : String) (toolCalls : List ToolCall)
  | toolResult (callId : String) (toolName : String) (content : String)
deriving DecidableEq, Repr

/-- One model response: its text and the tool calls it requests. -/
structure ModelResponse where
  content : String
  toolCalls : List ToolCall
deriving DecidableEq, Repr

/-- The gatekeeper system prompt of `get_ai_response` (lines 540-564). -/
def base_instructions : String :=
  "You are Meditab, an empathetic AI Health Assistant.\n" ++
  "**PROTOCOL 1: LANGUAGE MIRRORING**\n" ++
  "- Respond in the EXACT language/script of the user (Hindi, Gujarati, English).\n" ++
  "**PROTOCOL 2: THE \"NO-GHOST\" RULE (Report Generation)**\n" ++
  "- User Request: \"Make a report\" / \"Report banao\".\n" ++
  "- **CRITICAL CHECK**: Do you have the **PATIENT IDENTITY**?\n" ++
  "  1. **Name** (NOT \"User\" or \"Unknown\")\n" ++
  "  2. **Age** 3. **Gender**\n" ++
  "- **ACTION**: If ANY of these are missing, you MUST REFUSE to generate the report.\n" ++
  "  - *Say:* \"I need to know who this report is for. What is the patient\x27s name, age, and gender?\"\n" ++
  "**PROTOCOL 3: CLINICAL DATA CHECK**\n" ++
  "- Once Identity is confirmed, check for **CLINICAL VITALS**:\n" ++
  "  1. Chief Complaint (Symptoms)\n" ++
  "  2. Duration (How long?)\n" ++
  "  3. Severity/History\n" ++
  "- **ACTION**: If missing, ask for them specifically.\n" ++
  "**PROTOCOL 4: DOCTOR SIMULATION**\n" ++
  "- When calling \x27generate_hospital_pdf\x27, fill \x27Prognosis\x27 and \x27Opinion\x27 by INFERRING from symptoms.\n" ++
  "- NEVER leave fields blank."

/-- Fixed reply returned when the agent loop raises (line 608). -/
def fallback_reply : String := "System is currently busy. Please try again."

/-- Prompt construction of `get_ai_response` (lines 566-575): system
instructions, optional file-context notice, database history mapped to
human/ai messages, then the new user message. -/
def build_messages (file_context : Option String)
    (db_history : List (String × String)) (new_user_message : String) : List Msg :=
  [Msg.system base_instructions] ++
  (match file_context with
   | some fc => [Msg.system ("SYSTEM NOTICE: User file analysis:\n" ++ fc)]
   | none => []) ++
  db_history.map (fun m =>
    if m.1 == "user" then Msg.human m.2 else Msg.ai m.2 []) ++
  [Msg.human new_user_message]

/-- The per-call tool-execution loop (lines 585-598): calls named
`generate_hospital_pdf` produce exactly one ToolMessage each (an
error-marker message when the executor raises); calls with any other name
are skipped by the `if` and produce nothing. -/
def exec_tool_calls (execTool : ToolCall → Except String String)
    (tcs : List ToolCall) : List Msg :=
  tcs.filterMap (fun tc =>
    if tc.name == "generate_hospital_pdf" then
      some (Msg.toolResult tc.id tc.name
        (match execTool tc with
         | Except.ok r => r
         | Except.error e => "Error: " ++ e))
    else none)

/-- Observable outcome of one `get_ai_response` turn: the reply, how many
model invocations were issued, and the prompt sent to the second
invocation when one was made. -/
structure ControllerRun where
  reply : String
  invocations : Nat
  secondPrompt : Option (List Msg)
deriving DecidableEq, Repr

/-- The conversation controller `get_ai_response` (lines 534-608).  The
model is an oracle indexed by invocation number (each `ainvoke` may also
raise); the tool executor is an oracle that may raise. -/
def get_ai_response (oracle : Nat → Except String ModelResponse)
    (execTool : ToolCall → Except String String)
    (db_history : List (String × String)) (new_user_message : String)
    (file_context : Option String) : ControllerRun :=
  let messages := build_messages file_context db_history new_user_message
  match oracle 0 with
  | Except.error _ => ⟨fallback_reply, 1, none⟩
  | Except.ok response =>
    if response.toolCalls.isEmpty then
      ⟨response.content, 1, none⟩
    else
      let messages2 := messages ++ [Msg.ai response.content response.toolCalls] ++
        exec_tool_calls execTool response.toolCalls
      match oracle 1 with
      | Except.error _ => ⟨fallback_reply, 2, some messages2⟩
      | Except.ok final_response => ⟨final_response.content, 2, some messages2⟩

/-- The text/error view of a model invocation outcome (used to state that
the controller never inspects the second response's tool calls). -/
def content_view : Except String ModelResponse → Option String
  | Except.error _ => none
  | Except.ok r => some r.content

/-- Number of ToolMessages in `msgs` referencing call id `cid`. -/
def tool_results_for (cid : String) (msgs : List Msg) : Nat :=
  (msgs.filter (fun m =>
    match m with
    | Msg.toolResult callId _ _ => callId == cid
    | _ => false)).length

/-- `run_paddle_ocr` (lines 79-93).  The engine oracle either raises or
returns Python's `result`: `none` models a falsy (`None`) result, and each
inner list holds the recognized texts (`word_info[1][0]`) of one line. -/
def run_paddle_ocr (ocrAvailable : Bool)
    (engine : Except String (Option (List (List String)))) : String :=
  if !ocrAvailable then "[System: OCR Module not installed]"
  else
    match engine with
    | Except.error e => "[OCR Error: " ++ e ++ "]"
    | Except.ok result =>
      let extracted_text :=
        match result with
        | some (l0 :: rest) =>
          if l0.isEmpty then []
          else ((l0 :: rest).filter (fun line => !line.isEmpty)).foldr
            (fun line acc => line ++ acc) []
        | _ => []
      let full_text := Py.joinSep "\n" extracted_text
      if Py.pyStrip full_text != "" then full_text
      else "[OCR: No readable text found]"

/-- Effect outcomes consumed by `analyze_document`: the text accumulated
by the pypdf loop (its exceptions are swallowed by `except: pass`, so only
the accumulated text is observable), the string returned by
`run_paddle_ocr`, the image read, and the vision model call. -/
structure DocEnv where
  pdfText : String
  ocrText : String
  imageRead : Except String String
  visionContent : Except String String
deriving Repr

/-- `analyze_document` (lines 95-140).  The whole body is wrapped in a
try/except that converts any escaping exception into a marked placeholder
string. -/
def analyze_document (env : DocEnv) (mime_type : String) : String :=
  if Py.pyIn "pdf" mime_type then
    if (Py.pyStrip env.pdfText).length < 50 then
      "[SYSTEM: Scanned PDF Content (via OCR)]:\n" ++ Py.pyTake 6000 env.ocrText
    else
      "[SYSTEM: PDF Content]:\n" ++ Py.pyTake 6000 env.pdfText
  else if Py.pyIn "image" mime_type then
    match env.imageRead with
    | Except.error e => "[SYSTEM: Analysis Error: " ++ e ++ "]"
    | Except.ok _ =>
      match env.visionContent with
      | Except.error e => "[SYSTEM: Analysis Error: " ++ e ++ "]"
      | Except.ok v =>
        "[SYSTEM: Visual Analysis]: " ++ v ++ "\n\n" ++
        "[SYSTEM: OCR Text]: " ++ env.ocrText
  else
    "[SYSTEM: User uploaded file of type " ++ mime_type ++ "]"

/-- `transcribe_audio` (lines 614-654): missing-file check, then the
Whisper call (an oracle that may raise), then output cleaning. -/
def transcribe_audio (file_path : String) (fileExists : Bool)
    (api : Except String String) : String :=
  if file_path == "" || !fileExists then "(Error: Audio file missing)"
  else
    match api with
    | Except.error _ => "(Audio processing temporarily unavailable)"
    | Except.ok t =>
      let text := Py.pyStrip t
      if text == "" then "(No speech detected in audio)" else text

end AiNew

namespace AiServices

/-! Embedding of `backend/ai_services.py` (the older controller variant). -/

/-- The system prompt of the older variant (lines 21-30). -/
def SYSTEM_PROMPT : String :=
  "You are an advanced Medical AI Assistant for a Patient Portal.\n" ++
  "Your goal is to gather information from the patient to prepare a summary for the real doctor.\n" ++
  "RULES:\n" ++
  "1. Be empathetic, professional, and clear.\n" ++
  "2. When a user describes symptoms, ask 1-2 relevant follow-up questions.\n" ++
  "3. DO NOT provide a medical diagnosis. Instead, say \"This sounds like something the doctor should review.\"\n" ++
  "4. If the user types \x27SUMMARIZE\x27, you must stop chatting and output a STRICT JSON summary."

/-- Message construction of the older `get_ai_response` (lines 38-55):
system prompt, history entries with non-empty role and content, then the
new user message.  (List-valued contents, which the source flattens to a
string, are modelled as already-flattened strings.) -/
def build_messages (db_history : List (String × String))
    (new_user_message : String) : List (String × String) :=
  [("system", SYSTEM_PROMPT)] ++
  db_history.filter (fun m => m.1 != "" && m.2 != "") ++
  [("user", new_user_message)]

/-- The older `get_ai_response` (lines 32-67): a single completion call
whose failure is caught and turned into an apology that appends `str(e)`.
The second component counts completion calls issued (always one). -/
def get_ai_response (db_history : List (String × String))
    (new_user_message : String)
    (complete : List (String × String) → Except String String) : String × Nat :=
  match complete (build_messages db_history new_user_message) with
  | Except.ok content => (content, 1)
  | Except.error e =>
    ("I\x27m having trouble connecting to my brain right now. Error: " ++ e, 1)

end AiServices

namespace MedGraph

/-! Embedding of `backend/testing/final_medical_groq.py` (the multi-agent
LangGraph variant). -/

/-- Message roles in the graph state. -/
inductive Role
  | user
  | assistant
  | tool
deriving DecidableEq, Repr

/-- A graph tool call. -/
structure GToolCall where
  id : String
  name : String
  args : List (String × String)
deriving DecidableEq, Repr

/-- A graph state message (ToolNode call-id bookkeeping is carried by the
content oracle and not needed by any claim). -/
structure GMsg where
  role : Role
  content : String
  toolCalls : List GToolCall
deriving DecidableEq, Repr

/-- Emergency keywords of `triage_node` (line 142). -/
def emergency_keywords : List String :=
  ["chest pain", "can\x27t breathe", "fainted", "blood"]

/-- Admin keywords of `triage_node` (line 144). -/
def admin_keywords : List String :=
  ["appointment", "schedule", "bill", "admin"]

/-- Agents the triage router dispatches to. -/
inductive AgentName
  | clinical
  | admin
  | emergency
deriving DecidableEq, Repr

/-- Triage status values. -/
inductive TriageStatus
  | unknown
  | stable
  | critical
deriving DecidableEq, Repr

/-- `triage_node` (lines 137-147): lowercase the last message, check the
emergency keywords first, then the admin keywords, else clinical. -/
def triage_node (last_msg_content : String) : TriageStatus × AgentName :=
  let m := Py.pyLower last_msg_content
  if emergency_keywords.any (fun k => Py.pyIn k m) then
    (TriageStatus.critical, AgentName.emergency)
  else if admin_keywords.any (fun k => Py.pyIn k m) then
    (TriageStatus.stable, AgentName.admin)
  else
    (TriageStatus.stable, AgentName.clinical)

/-- The fixed escalation reply of `emergency_node` (line 210). -/
def emergency_text : String :=
  "I have flagged your location for emergency services. Please remain calm. A human operator is taking over."

/-- One agent-model response in the graph. -/
structure MResponse where
  content : String
  toolCalls : List GToolCall
deriving DecidableEq, Repr

/-- Oracles for the graph's model-backed nodes and its ToolNode. -/
structure GraphEnv where
  clinicalModel : List GMsg → MResponse
  adminModel : List GMsg → MResponse
  runTool : GToolCall → String

/-- The clinical/admin loop of the compiled graph (`route_medical_step`,
lines 233-251): a tool-calling response goes to the ToolNode whose
outputs loop back to the clinical node; a `SUMMARY_READY` response goes
to the summarizer, which appends its fixed closing message; otherwise the
turn ends.  `fuel` bounds the tool loop so the function is total; the
second component collects every tool call actually executed. -/
def medical_loop (env : GraphEnv) : Nat → AgentName → List GMsg →
    List GMsg × List GToolCall
  | fuel, agent, msgs =>
    let resp :=
      match agent with
      | AgentName.admin => env.adminModel msgs
      | _ => env.clinicalModel msgs
    let ai_msg : GMsg := ⟨Role.assistant, resp.content, resp.toolCalls⟩
    if resp.toolCalls.isEmpty then
      if Py.pyIn "SUMMARY_READY" resp.content then
        (msgs ++ [ai_msg,
          ⟨Role.assistant, "Report generated and sent to provider.", []⟩], [])
      else
        (msgs ++ [ai_msg], [])
    else
      match fuel with
      | 0 => (msgs ++ [ai_msg], resp.toolCalls)
      | Nat.succ fuel2 =>
        let tool_msgs := resp.toolCalls.map
          (fun tc => (⟨Role.tool, env.runTool tc, []⟩ : GMsg))
        let rest := medical_loop env fuel2 AgentName.clinical
          (msgs ++ [ai_msg] ++ tool_msgs)
        (rest.1, resp.toolCalls ++ rest.2)

/-- One user turn of the compiled graph (entry point `triage`, then
`route_after_triage`): append the user message, triage on the last
message, and either emit the fixed emergency reply (edge to END, no
tool) or run the clinical/admin loop. -/
def run_turn (env : GraphEnv) (fuel : Nat) (history : List GMsg)
    (user_input : String) : List GMsg × List GToolCall :=
  let msgs := history ++ [⟨Role.user, user_input, []⟩]
  let last_content := ((msgs.getLast?).getD ⟨Role.user, "", []⟩).content
  match (triage_node last_content).2 with
  | AgentName.emergency =>
    (msgs ++ [⟨Role.assistant, emergency_text, []⟩], [])
  | AgentName.admin => medical_loop env fuel AgentName.admin msgs
  | AgentName.clinical => medical_loop env fuel AgentName.clinical msgs

end MedGraph

/-! Theorems. -/

/-- Helper: mapping after a Boolean filter is a filterMap. -/
theorem filter_map_eq_filterMap {α β : Type} (p : α → Bool) (g : α → β)
    (l : List α) :
    (l.filter p).map g =
      l.filterMap (fun x => if p x then some (g x) else none) := by
  induction l with
  | nil => rfl
  | cons x xs ih => by_cases h : p x <;> simp [h, ih]

/-- C9: the Validation Gate's placeholder sets are fixed per field and
compared after lowercasing: a name is missing iff empty or a name
placeholder, an age iff empty or an age placeholder (so the literal "0"
is always missing), a gender iff empty or a gender placeholder; any other
non-empty value passes for its field. -/
theorem c9_placeholder_sets_per_field :
    ∀ s : String,
    (AiNew.name_missing s = true ↔
      s = "" ∨ Py.pyLower s ∈ (["unknown", "user", "patient", "n/a"] : List String))
    ∧ (AiNew.age_missing s = true ↔
      s = "" ∨ Py.pyLower s ∈ (["unknown", "0", "n/a"] : List String))
    ∧ (AiNew.gender_missing s = true ↔
      s = "" ∨ Py.pyLower s ∈ (["unknown", "not specified", "n/a"] : List String))
    ∧ AiNew.age_missing "0" = true := by
  intro s
  refine ⟨?_, ?_, ?_, by decide⟩ <;>
    simp [AiNew.name_missing, AiNew.age_missing, AiNew.gender_missing,
      AiNew.name_placeholders, AiNew.age_placeholders, AiNew.gender_placeholders,
      List.contains, Bool.or_eq_true]

/-- C2: when any identity field is empty or a placeholder, the Validation
Gate returns accepted=false and its rejection message lists exactly the
missing fields in the stable order Patient Name, Age, Gender; input
name="", age="29", gender="Female" is rejected with exactly
["Patient Name"] missing. -/
theorem c2_rejection_lists_exactly_missing_fields :
    ∀ a : AiNew.GenArgs,
    (AiNew.missing_fields a ≠ [] →
        (AiNew.validate_report_args a).accepted = false
        ∧ (AiNew.validate_report_args a).message =
            AiNew.rejection_message (AiNew.missing_fields a))
    ∧ ("Patient Name" ∈ AiNew.missing_fields a ↔
        AiNew.name_missing a.patient_name = true)
    ∧ ("Age" ∈ AiNew.missing_fields a ↔ AiNew.age_missing a.age = true)
    ∧ ("Gender" ∈ AiNew.missing_fields a ↔ AiNew.gender_missing a.gender = true)
    ∧ List.Sublist (AiNew.missing_fields a) ["Patient Name", "Age", "Gender"]
    ∧ ∀ cc h li d m p o r : String,
        AiNew.missing_fields ⟨"", "29", "Female", cc, h, li, d, m, p, o, r⟩ =
          ["Patient Name"] := by
  intro a
  refine ⟨?_, ?_, ?_, ?_, ?_, ?_⟩
  · intro hne
    cases hmf : AiNew.missing_fields a with
    | nil => exact absurd hmf hne
    | cons x xs =>
      constructor <;> simp [AiNew.validate_report_args, hmf]
  · cases hn : AiNew.name_missing a.patient_name <;>
      cases ha : AiNew.age_missing a.age <;>
      cases hg : AiNew.gender_missing a.gender <;>
      simp [AiNew.missing_fields, hn, ha, hg]
  · cases hn : AiNew.name_missing a.patient_name <;>
      cases ha : AiNew.age_missing a.age <;>
      cases hg : AiNew.gender_missing a.gender <;>
      simp [AiNew.missing_fields, hn, ha, hg]
  · cases hn : AiNew.name_missing a.patient_name <;>
      cases ha : AiNew.age_missing a.age <;>
      cases hg : AiNew.gender_missing a.gender <;>
      simp [AiNew.missing_fields, hn, ha, hg]
  · cases hn : AiNew.name_missing a.patient_name <;>
      cases ha : AiNew.age_missing a.age <;>
      cases hg : AiNew.gender_missing a.gender <;>
      simp only [AiNew.missing_fields, hn, ha, hg, if_true, if_false,
        List.append_nil, List.nil_append, List.append_assoc] <;>
      decide
  · intro cc h li d m p o r
    have h1 : AiNew.name_missing "" = true := by decide
    have h2 : AiNew.age_missing "29" = false := by decide
    have h3 : AiNew.gender_missing "Female" = false := by decide
    simp [AiNew.missing_fields, h1, h2, h3]

/-- C1: `generate_hospital_pdf` creates the report file only when the
validation verdict is accepted (no missing identity field); when any
identity field is missing or a placeholder, no file is created and the
returned ToolResult content is SYSTEM_REJECTION-shaped. -/
theorem c1_no_side_effect_without_gate :
    ∀ (render : String → AiNew.ReportData → Except (String × Bool) Unit)
      (now : Nat) (a : AiNew.GenArgs),
    ((AiNew.generate_hospital_pdf render now a).created_file.isSome = true →
        AiNew.missing_fields a = []
        ∧ (AiNew.validate_report_args a).accepted = true)
    ∧ (AiNew.missing_fields a ≠ [] →
        (AiNew.generate_hospital_pdf render now a).created_file = none
        ∧ (AiNew.generate_hospital_pdf render now a).result =
            AiNew.rejection_message (AiNew.missing_fields a)
        ∧ ∃ rest, (AiNew.generate_hospital_pdf render now a).result =
            "SYSTEM_REJECTION: You cannot generate a report yet. You are missing: "
              ++ rest) := by
  intro render now a
  by_cases h : (AiNew.missing_fields a).isEmpty
  · have hmf : AiNew.missing_fields a = [] := by
      cases hc : AiNew.missing_fields a with
      | nil => rfl
      | cons x xs => rw [hc] at h; exact absurd h (by simp)
    constructor
    · intro _
      exact ⟨hmf, by simp [AiNew.validate_report_args, hmf]⟩
    · intro hne
      exact absurd hmf hne
  · have hmfne : AiNew.missing_fields a ≠ [] := by
      intro he
      rw [he] at h
      exact h rfl
    have hgen : AiNew.generate_hospital_pdf render now a =
        ⟨AiNew.rejection_message (AiNew.missing_fields a), none, none⟩ := by
      unfold AiNew.generate_hospital_pdf
      rw [if_neg h]
    constructor
    · intro hs
      rw [hgen] at hs
      exact absurd hs (by simp)
    · intro _
      rw [hgen]
      refine ⟨rfl, rfl, ?_⟩
      refine ⟨Py.joinSep ", " (AiNew.missing_fields a) ++
        ". Ask the user for these details first.", ?_⟩
      show AiNew.rejection_message (AiNew.missing_fields a) = _
      unfold AiNew.rejection_message
      rw [String.append_assoc]

/-- C3: for every complete, well-formed argument set the Validation Gate
accepts, and the normalized ReportPayload preserves every non-identity
field byte-for-byte; the medications string is split on commas and
newlines into one entry per non-empty trimmed segment (title-cased, as
the scenario shows): "metformin, lisinopril" becomes
["Metformin", "Lisinopril"], and "" falls back to ["None reported"]. -/
theorem c3_accepted_payload_preserves_fields :
    ∀ (render : String → AiNew.ReportData → Except (String × Bool) Unit)
      (now : Nat) (a : AiNew.GenArgs),
    AiNew.missing_fields a = [] →
    (AiNew.validate_report_args a).accepted = true
    ∧ (AiNew.generate_hospital_pdf render now a).payload =
        some ⟨Py.pyTitle a.patient_name, a.age, Py.pyTitle a.gender,
          a.chief_complaint, a.history, a.lifestyle_impact, a.diagnosis,
          AiNew.parse_medications a.medications, a.prognosis,
          a.medical_opinion, a.recommendations⟩
    ∧ (∀ meds : String, meds ≠ "" →
        AiNew.parse_medications meds =
          (Py.splitChar ',' (Py.pyReplaceChar '\n' ',' meds)).filterMap
            (fun m => if Py.pyStrip m != "" then some (Py.pyTitle (Py.pyStrip m))
                      else none))
    ∧ AiNew.parse_medications "metformin, lisinopril" = ["Metformin", "Lisinopril"]
    ∧ AiNew.parse_medications "" = ["None reported"] := by
  intro render now a hmf
  have hemp : (AiNew.missing_fields a).isEmpty = true := by rw [hmf]; rfl
  refine ⟨by simp [AiNew.validate_report_args, hmf], ?_, ?_, by decide, by decide⟩
  · unfold AiNew.generate_hospital_pdf
    rw [if_pos hemp]
    cases hr : render (AiNew.report_filename a.patient_name now)
        ⟨Py.pyTitle a.patient_name, a.age, Py.pyTitle a.gender,
          a.chief_complaint, a.history, a.lifestyle_impact, a.diagnosis,
          AiNew.parse_medications a.medications, a.prognosis,
          a.medical_opinion, a.recommendations⟩ with
    | ok v => simp [hr]
    | error e => simp [hr]
  · intro meds hne
    have hb : (meds != "") = true := by simp [bne_iff_ne, hne]
    unfold AiNew.parse_medications
    rw [if_pos hb]
    exact filter_map_eq_filterMap _ _ _

/-- C10 (amended): for accepted calls the filename is exactly "Report_"
plus the first 10 characters of the patient name that Python's
`str.isalnum` accepts, an underscore, the integer timestamp and ".pdf";
every retained name character is alphanumeric in Python's sense — hence
never a path separator or a dot, so the file path lies directly inside
static/reports — but it need not lie in [A-Za-z0-9]. -/
theorem c10_amended_filename_hygiene :
    ∀ (patient_name : String) (now : Nat),
    AiNew.report_filename patient_name now =
        "Report_" ++ AiNew.safe_name patient_name ++ "_" ++ toString now ++ ".pdf"
    ∧ (∀ c ∈ (AiNew.safe_name patient_name).data,
        Py.pyIsAlnum c = true ∧ c ≠ '/' ∧ c ≠ '\\' ∧ c ≠ '.')
    ∧ AiNew.create_pdf_path (AiNew.report_filename patient_name now) =
        "static/reports/" ++ AiNew.report_filename patient_name now := by
  intro patient_name now
  refine ⟨rfl, ?_, rfl⟩
  intro c hc
  have hmem : c ∈ patient_name.data.filter Py.pyIsAlnum :=
    List.mem_of_mem_take hc
  have halnum : Py.pyIsAlnum c = true := (List.mem_filter.mp hmem).2
  refine ⟨halnum, ?_, ?_, ?_⟩ <;>
    (intro he; rw [he] at halnum; exact absurd halnum (by decide))

/-- C10 (counterexample): the accepted patient name "élise" puts the
character é — alphanumeric for Python but outside [A-Za-z0-9] — into the
generated filename, refuting the claim that no user-supplied character
outside [A-Za-z0-9] ever appears there. -/
theorem c10_counterexample_unicode_in_filename :
    AiNew.missing_fields ⟨"\xe9lise", "30", "Female", "", "", "", "", "", "", "", ""⟩ = []
    ∧ (AiNew.generate_hospital_pdf (fun _ _ => Except.ok ()) 0
        ⟨"\xe9lise", "30", "Female", "", "", "", "", "", "", "", ""⟩).created_file =
        some "Report_\xe9lise_0.pdf"
    ∧ '\xe9' ∈ (AiNew.report_filename "\xe9lise" 0).data
    ∧ Char.isAlphanum '\xe9' = false := by
  refine ⟨by decide, ?_, by decide, by decide⟩
  rfl

/-- C4: the Controller issues at most two model invocations per user
turn; a first response without tool calls is the final reply directly
(one invocation); and the reply depends only on the first invocation's
outcome and the second invocation's text — the second response's tool
calls are never inspected and no third invocation can influence the
turn. -/
theorem c4_single_level_tool_loop :
    ∀ (oracle oracle2 : Nat → Except String AiNew.ModelResponse)
      (execTool : AiNew.ToolCall → Except String String)
      (hist : List (String × String)) (msg : String) (fc : Option String),
    (AiNew.get_ai_response oracle execTool hist msg fc).invocations ≤ 2
    ∧ (∀ r1 : AiNew.ModelResponse, oracle 0 = Except.ok r1 → r1.toolCalls = [] →
        (AiNew.get_ai_response oracle execTool hist msg fc).reply = r1.content
        ∧ (AiNew.get_ai_response oracle execTool hist msg fc).invocations = 1)
    ∧ (oracle2 0 = oracle 0 →
        AiNew.content_view (oracle2 1) = AiNew.content_view (oracle 1) →
        (AiNew.get_ai_response oracle2 execTool hist msg fc).reply =
          (AiNew.get_ai_response oracle execTool hist msg fc).reply) := by
  intro oracle oracle2 execTool hist msg fc
  refine ⟨?_, ?_, ?_⟩
  · cases h0 : oracle 0 with
    | error e => simp [AiNew.get_ai_response, h0]
    | ok r1 =>
      by_cases he : r1.toolCalls.isEmpty
      · simp [AiNew.get_ai_response, h0, he]
      · cases h1 : oracle 1 <;> simp [AiNew.get_ai_response, h0, he, h1]
  · intro r1 h0 htc
    constructor <;> simp [AiNew.get_ai_response, h0, htc]
  · intro he0 he1
    cases h0 : oracle 0 with
    | error e =>
      have h0' : oracle2 0 = Except.error e := by rw [he0, h0]
      simp [AiNew.get_ai_response, h0, h0']
    | ok r1 =>
      have h0' : oracle2 0 = Except.ok r1 := by rw [he0, h0]
      by_cases he : r1.toolCalls.isEmpty
      · simp [AiNew.get_ai_response, h0, h0', he]
      · cases h1 : oracle 1 with
        | error e1 =>
          cases h1' : oracle2 1 with
          | error e2 => simp [AiNew.get_ai_response, h0, h0', he, h1, h1']
          | ok r2 =>
            rw [h1, h1'] at he1
            exact absurd he1 (by simp [AiNew.content_view])
        | ok r2 =>
          cases h1' : oracle2 1 with
          | error e2 =>
            rw [h1, h1'] at he1
            exact absurd he1 (by simp [AiNew.content_view])
          | ok r2' =>
            have hc : r2'.content = r2.content := by
              rw [h1, h1'] at he1
              simpa [AiNew.content_view] using he1
            simp [AiNew.get_ai_response, h0, h0', he, h1, h1', hc]

/-- C6 (amended): for every ToolCall named generate_hospital_pdf in the
first response, the Controller appends exactly one ToolResult referencing
that call's id — error-shaped ("Error: ...") when the executor raises —
before the second invocation, which always proceeds; ToolCalls naming any
other tool are silently dropped (no ToolResult is appended for them),
though the Controller does not crash and still issues the second
invocation. -/
theorem c6_amended_tool_results_per_call :
    ∀ (oracle : Nat → Except String AiNew.ModelResponse)
      (execTool : AiNew.ToolCall → Except String String)
      (hist : List (String × String)) (msg : String) (fc : Option String)
      (r1 : AiNew.ModelResponse),
    oracle 0 = Except.ok r1 → r1.toolCalls ≠ [] →
    (AiNew.get_ai_response oracle execTool hist msg fc).invocations = 2
    ∧ (AiNew.get_ai_response oracle execTool hist msg fc).secondPrompt =
        some (AiNew.build_messages fc hist msg ++
          [AiNew.Msg.ai r1.content r1.toolCalls] ++
          AiNew.exec_tool_calls execTool r1.toolCalls)
    ∧ AiNew.exec_tool_calls execTool r1.toolCalls =
        (r1.toolCalls.filter
          (fun tc => tc.name == "generate_hospital_pdf")).map
          (fun tc => AiNew.Msg.toolResult tc.id tc.name
            (match execTool tc with
             | Except.ok r => r
             | Except.error e => "Error: " ++ e)) := by
  intro oracle execTool hist msg fc r1 h0 hne
  have he : r1.toolCalls.isEmpty = false := by
    cases hc : r1.toolCalls with
    | nil => exact absurd hc hne
    | cons x xs => rfl
  refine ⟨?_, ?_, ?_⟩
  · cases h1 : oracle 1 <;> simp [AiNew.get_ai_response, h0, he, h1]
  · cases h1 : oracle 1 <;> simp [AiNew.get_ai_response, h0, he, h1]
  · rw [filter_map_eq_filterMap]
    rfl

/-- C6 (counterexample): a ToolCall naming a non-existent tool
("schedule_appointment") gets no ToolResult at all — zero messages
referencing its id are appended before the second invocation — refuting
the claim that every ToolCall receives exactly one ToolResult. -/
theorem c6_counterexample_unknown_tool_dropped :
    (AiNew.get_ai_response
      (fun n => if n == 0 then
          Except.ok ⟨"", [⟨"call_1", "schedule_appointment", []⟩]⟩
        else Except.ok ⟨"done", []⟩)
      (fun _ => Except.ok "ok") [] "book me" none).invocations = 2
    ∧ AiNew.tool_results_for "call_1"
        (((AiNew.get_ai_response
          (fun n => if n == 0 then
              Except.ok ⟨"", [⟨"call_1", "schedule_appointment", []⟩]⟩
            else Except.ok ⟨"done", []⟩)
          (fun _ => Except.ok "ok") [] "book me" none).secondPrompt).getD []) = 0 := by
  constructor <;> rfl

/-- C7 (amended): when a model call raises, the ai_new_services
controller returns the fixed reply "System is currently busy. Please try
again." and does not retry within the turn (a first-call failure means
exactly one invocation); the ai_services variant also makes no second
call, but its reply appends the raw error text to an apology, so it is
not a fixed reply and the error message is surfaced. -/
theorem c7_amended_failure_replies :
    ∀ (oracle : Nat → Except String AiNew.ModelResponse)
      (execTool : AiNew.ToolCall → Except String String)
      (hist : List (String × String)) (msg : String) (fc : Option String)
      (e : String) (hist2 : List (String × String)) (msg2 : String)
      (complete : List (String × String) → Except String String),
    (oracle 0 = Except.error e →
        AiNew.get_ai_response oracle execTool hist msg fc =
          ⟨AiNew.fallback_reply, 1, none⟩)
    ∧ (∀ r1 : AiNew.ModelResponse, oracle 0 = Except.ok r1 →
        r1.toolCalls ≠ [] → oracle 1 = Except.error e →
        (AiNew.get_ai_response oracle execTool hist msg fc).reply =
          AiNew.fallback_reply
        ∧ (AiNew.get_ai_response oracle execTool hist msg fc).invocations = 2)
    ∧ (complete (AiServices.build_messages hist2 msg2) = Except.error e →
        AiServices.get_ai_response hist2 msg2 complete =
          ("I\x27m having trouble connecting to my brain right now. Error: " ++ e,
           1)) := by
  intro oracle execTool hist msg fc e hist2 msg2 complete
  refine ⟨?_, ?_, ?_⟩
  · intro h0
    simp [AiNew.get_ai_response, h0]
  · intro r1 h0 hne h1
    have he : r1.toolCalls.isEmpty = false := by
      cases hc : r1.toolCalls with
      | nil => exact absurd hc hne
      | cons x xs => rfl
    constructor <;> simp [AiNew.get_ai_response, h0, he, h1]
  · intro hc
    simp [AiServices.get_ai_response, hc]

/-- C7 (counterexample): the ai_services variant's failure reply embeds
the raw error string, so the reply is not fixed (it differs across
errors) and the underlying error text reaches the user. -/
theorem c7_counterexample_error_text_in_reply :
    (AiServices.get_ai_response [] "hi" (fun _ => Except.error "boom")).1 =
      "I\x27m having trouble connecting to my brain right now. Error: boom"
    ∧ (AiServices.get_ai_response [] "hi" (fun _ => Except.error "boom")).1 ≠
      (AiServices.get_ai_response [] "hi" (fun _ => Except.error "quota")).1
    ∧ Py.pyIn "boom"
        (AiServices.get_ai_response [] "hi" (fun _ => Except.error "boom")).1 =
        true := by
  refine ⟨rfl, by decide, by decide⟩

/-- C5: every message matching an emergency keyword — even if it also
matches an admin keyword, since the emergency check comes first — routes
to the emergency agent, whose turn emits the fixed escalation reply and
invokes no tool. -/
theorem c5_emergency_routing_fail_safe :
    ∀ (env : MedGraph.GraphEnv) (fuel : Nat) (hist : List MedGraph.GMsg)
      (msg : String),
    MedGraph.emergency_keywords.any (fun k => Py.pyIn k (Py.pyLower msg)) = true →
    MedGraph.triage_node msg =
      (MedGraph.TriageStatus.critical, MedGraph.AgentName.emergency)
    ∧ MedGraph.run_turn env fuel hist msg =
        (hist ++ [⟨MedGraph.Role.user, msg, []⟩,
          ⟨MedGraph.Role.assistant, MedGraph.emergency_text, []⟩], []) := by
  intro env fuel hist msg h
  have htr : MedGraph.triage_node msg =
      (MedGraph.TriageStatus.critical, MedGraph.AgentName.emergency) := by
    unfold MedGraph.triage_node
    rw [if_pos h]
  refine ⟨htr, ?_⟩
  unfold MedGraph.run_turn
  simp [List.getLast?_concat, htr]

/-- C8: every preprocessor entry point is a total function into String —
it never raises — and each internal failure mode yields the source's
clearly marked placeholder string: OCR module absent or engine error,
vision or image-read error, unreadable scanned PDF, missing audio file,
transcription API error, or empty transcript. -/
theorem c8_preprocessors_never_raise :
    ∀ (e txt mime fp : String)
      (eng : Except String (Option (List (List String))))
      (env : AiNew.DocEnv),
    AiNew.run_paddle_ocr false eng = "[System: OCR Module not installed]"
    ∧ AiNew.run_paddle_ocr true (Except.error e) = "[OCR Error: " ++ e ++ "]"
    ∧ (Py.pyIn "pdf" mime = true →
        AiNew.analyze_document ⟨"", env.ocrText, env.imageRead, env.visionContent⟩
            mime =
          "[SYSTEM: Scanned PDF Content (via OCR)]:\n" ++ Py.pyTake 6000 env.ocrText)
    ∧ (Py.pyIn "pdf" mime = false → Py.pyIn "image" mime = true →
        AiNew.analyze_document
            ⟨env.pdfText, env.ocrText, Except.error e, env.visionContent⟩ mime =
          "[SYSTEM: Analysis Error: " ++ e ++ "]")
    ∧ (Py.pyIn "pdf" mime = false → Py.pyIn "image" mime = true →
        AiNew.analyze_document
            ⟨env.pdfText, env.ocrText, Except.ok txt, Except.error e⟩ mime =
          "[SYSTEM: Analysis Error: " ++ e ++ "]")
    ∧ (Py.pyIn "pdf" mime = false → Py.pyIn "image" mime = false →
        AiNew.analyze_document env mime =
          "[SYSTEM: User uploaded file of type " ++ mime ++ "]")
    ∧ AiNew.transcribe_audio "" true (Except.ok txt) = "(Error: Audio file missing)"
    ∧ AiNew.transcribe_audio fp false (Except.ok txt) = "(Error: Audio file missing)"
    ∧ (fp ≠ "" → AiNew.transcribe_audio fp true (Except.error e) =
        "(Audio processing temporarily unavailable)")
    ∧ (fp ≠ "" → Py.pyStrip txt = "" →
        AiNew.transcribe_audio fp true (Except.ok txt) =
          "(No speech detected in audio)") := by
  intro e txt mime fp eng env
  refine ⟨rfl, rfl, ?_, ?_, ?_, ?_, rfl, ?_, ?_, ?_⟩
  · intro hpdf
    simp [AiNew.analyze_document, hpdf, Py.pyStrip]
  · intro hpdf himg
    simp [AiNew.analyze_document, hpdf, himg]
  · intro hpdf himg
    simp [AiNew.analyze_document, hpdf, himg]
  · intro hpdf himg
    simp [AiNew.analyze_document, hpdf, himg]
  · simp [AiNew.transcribe_audio]
  · intro hfp
    simp [AiNew.transcribe_audio, hfp]
  · intro hfp hstrip
    simp [AiNew.transcribe_audio, hfp, hstrip]

/-- Witness for C1: with the empty name, no file is created and the
result is the rejection message. -/
theorem c1_witness :
    (AiNew.generate_hospital_pdf (fun _ _ => Except.ok ()) 0
      ⟨"", "29", "Female", "c", "h", "l", "d", "m", "p", "o", "r"⟩).created_file =
      none := by
  have h := c1_no_side_effect_without_gate (fun _ _ => Except.ok ()) 0
      ⟨"", "29", "Female", "c", "h", "l", "d", "m", "p", "o", "r"⟩
  exact (h.2 (by decide)).1

/-- Witness for C2: scenario A — name="", age="29", gender="Female" is
rejected with exactly ["Patient Name"] missing. -/
theorem c2_witness :
    AiNew.missing_fields ⟨"", "29", "Female", "", "", "", "", "", "", "", ""⟩ =
      ["Patient Name"]
    ∧ (AiNew.validate_report_args
        ⟨"", "29", "Female", "", "", "", "", "", "", "", ""⟩).accepted = false := by
  have h := c2_rejection_lists_exactly_missing_fields
      ⟨"", "29", "Female", "", "", "", "", "", "", "", ""⟩
  exact ⟨h.2.2.2.2.2 "" "" "" "" "" "" "" "", (h.1 (by decide)).1⟩

/-- Witness for C3: scenario B — Asha Rao is accepted and the medication
list normalizes to ["Metformin", "Lisinopril"]. -/
theorem c3_witness :
    (AiNew.validate_report_args
      ⟨"Asha Rao", "34", "Female", "cough", "two days", "mild", "viral",
       "metformin, lisinopril", "good", "rest", "fluids"⟩).accepted = true
    ∧ AiNew.parse_medications "metformin, lisinopril" =
        ["Metformin", "Lisinopril"] := by
  have h := c3_accepted_payload_preserves_fields (fun _ _ => Except.ok ()) 0
      ⟨"Asha Rao", "34", "Female", "cough", "two days", "mild", "viral",
       "metformin, lisinopril", "good", "rest", "fluids"⟩ (by decide)
  exact ⟨h.1, h.2.2.2.1⟩

/-- Witness for C4: a first response without tool calls is the final
reply after exactly one invocation. -/
theorem c4_witness :
    (AiNew.get_ai_response (fun _ => Except.ok ⟨"hello", []⟩)
      (fun _ => Except.ok "ok") [] "hi" none).reply = "hello"
    ∧ (AiNew.get_ai_response (fun _ => Except.ok ⟨"hello", []⟩)
      (fun _ => Except.ok "ok") [] "hi" none).invocations = 1 := by
  have h := c4_single_level_tool_loop (fun _ => Except.ok ⟨"hello", []⟩)
      (fun _ => Except.ok ⟨"hello", []⟩) (fun _ => Except.ok "ok") [] "hi" none
  exact h.2.1 ⟨"hello", []⟩ rfl rfl

/-- Witness for C5: scenario C — the message "I can't breathe" with empty
history routes to emergency, no tool is invoked, and the reply is the
fixed escalation text. -/
theorem c5_witness :
    MedGraph.triage_node "I can\x27t breathe" =
      (MedGraph.TriageStatus.critical, MedGraph.AgentName.emergency)
    ∧ MedGraph.run_turn ⟨fun _ => ⟨"", []⟩, fun _ => ⟨"", []⟩, fun _ => ""⟩ 0 []
        "I can\x27t breathe" =
        ([⟨MedGraph.Role.user, "I can\x27t breathe", []⟩,
          ⟨MedGraph.Role.assistant, MedGraph.emergency_text, []⟩], []) := by
  have h := c5_emergency_routing_fail_safe
      ⟨fun _ => ⟨"", []⟩, fun _ => ⟨"", []⟩, fun _ => ""⟩ 0 []
      "I can\x27t breathe" (by decide)
  exact ⟨h.1, by simpa using h.2⟩

/-- Witness for C6: scenario D — an executor exception becomes an
error-marker ToolResult and the second invocation still proceeds. -/
theorem c6_witness :
    (AiNew.get_ai_response
      (fun n => if n == 0 then
          Except.ok ⟨"", [⟨"call_1", "generate_hospital_pdf", []⟩]⟩
        else Except.ok ⟨"done", []⟩)
      (fun _ => Except.error "boom") [] "report" none).invocations = 2
    ∧ AiNew.exec_tool_calls (fun _ => Except.error "boom")
        [⟨"call_1", "generate_hospital_pdf", []⟩] =
        [AiNew.Msg.toolResult "call_1" "generate_hospital_pdf" "Error: boom"] := by
  have h := c6_amended_tool_results_per_call
      (fun n => if n == 0 then
          Except.ok ⟨"", [⟨"call_1", "generate_hospital_pdf", []⟩]⟩
        else Except.ok ⟨"done", []⟩)
      (fun _ => Except.error "boom") [] "report" none
      ⟨"", [⟨"call_1", "generate_hospital_pdf", []⟩]⟩ rfl (by decide)
  exact ⟨h.1, h.2.2.trans rfl⟩

/-- Witness for C7: a transport failure yields the fixed busy reply in
the ai_new_services controller with a single invocation, and the apology
plus raw error text in the ai_services variant. -/
theorem c7_witness :
    AiNew.get_ai_response (fun _ => Except.error "timeout")
      (fun _ => Except.ok "") [] "hi" none = ⟨AiNew.fallback_reply, 1, none⟩
    ∧ AiServices.get_ai_response [] "hi" (fun _ => Except.error "timeout") =
        ("I\x27m having trouble connecting to my brain right now. Error: timeout",
         1) := by
  have h := c7_amended_failure_replies (fun _ => Except.error "timeout")
      (fun _ => Except.ok "") [] "hi" none "timeout" [] "hi"
      (fun _ => Except.error "timeout")
  exact ⟨h.1 rfl, h.2.2 rfl⟩

/-- Witness for C8: a transcription API failure and an image-read failure
both come back as marked placeholder strings. -/
theorem c8_witness :
    AiNew.transcribe_audio "a.mp3" true (Except.error "api down") =
      "(Audio processing temporarily unavailable)"
    ∧ AiNew.analyze_document ⟨"", "", Except.error "api down", Except.ok ""⟩
        "image/png" = "[SYSTEM: Analysis Error: api down]" := by
  have h := c8_preprocessors_never_raise "api down" "" "image/png" "a.mp3"
      (Except.ok none) ⟨"", "", Except.error "api down", Except.ok ""⟩
  exact ⟨h.2.2.2.2.2.2.2.2.1 (by decide), h.2.2.2.1 (by decide) (by decide)⟩

/-- Witness for C9: the literal age "0" is treated as missing, while a
non-placeholder name passes. -/
theorem c9_witness :
    AiNew.age_missing "0" = true ∧ AiNew.name_missing "Asha" = false := by
  have h := c9_placeholder_sets_per_field "0"
  exact ⟨h.2.2.2, by decide⟩

/-- Witness for C10: the name "Asha Rao" keeps only its alphanumeric
characters in the generated filename. -/
theorem c10_witness :
    AiNew.report_filename "Asha Rao" 1700000000 =
      "Report_AshaRao_1700000000.pdf"
    ∧ (∀ c ∈ (AiNew.safe_name "Asha Rao").data, Py.pyIsAlnum c = true) := by
  have h := c10_amended_filename_hygiene "Asha Rao" 1700000000
  exact ⟨by decide, fun c hc => (h.2.1 c hc).1⟩
